import Mathlib

/-!
Verification of the comm-common session store and configuration layer.

The Rust sources embedded here are `src/session.rs` (session persistence,
result registration, room-scoped lookup, idle cleanup, all single SQL
statements against one `session` table) and `src/config.rs` (resolution of a
raw configuration document into a `Config` credential bundle).

The backing store is modelled as a list of rows (`List Row`) and the server
clock `now()` is passed explicitly as an integer timestamp in seconds.  Each
public operation is one SQL statement in the source; it is embedded as the
relational semantics of that statement: INSERT appends a row (failing with a
unique-key violation when the unique key is already present), UPDATE rewrites
the rows matching its WHERE clause and reports the affected-row count, DELETE
keeps exactly the rows not matching its WHERE clause.
-/

deriving instance DecidableEq for Except

namespace CommCommon

/-- Modelled from the spec: the error enumeration lives in `src/error.rs`,
which is not part of the sources given; the constructors follow the variants
the given sources use (`Error::BadRequest`, `Error::NotFound`,
`Error::from(postgres error)`) and the spec's taxonomy (`InvalidKeyMaterial`,
`InvalidToken`, `Conflict` = the `BadRequest` produced by `persist`,
`StorageError` = a passed-through backing-store error). -/
inductive Error where
  /-- `Error::BadRequest(msg)`; `persist` uses it for the spec's `Conflict`. -/
  | BadRequest (msg : String)
  /-- `Error::NotFound`. -/
  | NotFound
  /-- Validation failure of an inbound token or of a stored domain string. -/
  | InvalidToken
  /-- Malformed or capability-mismatched key declaration. -/
  | InvalidKeyMaterial
  /-- Any other backing-store failure, carrying the SQLSTATE code. -/
  | StorageError (code : String)
deriving DecidableEq, Repr

/-- Modelled from the spec: `SessionDomain` lives in `src/types.rs`, which is
not part of the sources given.  The spec describes it as "a closed enumeration
of session contexts, parsed from a string token; parsing fails with a
validation error on any unrecognized value (no open/extensible variants)";
the two contexts named by the spec are the guest and host participant roles. -/
inductive SessionDomain where
  | Guest
  | Host
deriving DecidableEq, Repr

/-- The `Display`/`to_string` rendering of a `SessionDomain`, the string form
stored in the `domain` column by `Session::persist`. -/
def SessionDomain.to_string : SessionDomain → String
  | .Guest => "guest"
  | .Host => "host"

/-- `SessionDomain::from_str`: accepts exactly the closed enumeration's string
forms and fails with a validation error on anything else (modelled from the
spec, see `SessionDomain`). -/
def SessionDomain.from_str (s : String) : Except Error SessionDomain :=
  if s = "guest" then .ok .Guest
  else if s = "host" then .ok .Host
  else .error Error.InvalidToken

/-- `GuestToken` from `src/types.rs` (modelled from the spec: id, room id,
domain, redirect URL, display name, instance identifier; exactly the fields
`Session::persist` stores and `Session::find_by_room_id` decodes).  The Rust
field `instance` is a Lean keyword and is rendered `instance_`. -/
structure GuestToken where
  id : String
  room_id : String
  domain : SessionDomain
  redirect_url : String
  name : String
  instance_ : String
deriving DecidableEq, Repr

/-- `Session` from `src/session.rs` lines 13-23. -/
structure Session where
  guest_token : GuestToken
  auth_result : Option String
  attr_id : String
  purpose : String
deriving DecidableEq, Repr

/-- `Session::new` (`src/session.rs` lines 27-34). -/
def Session.new (guest_token : GuestToken) (attr_id : String) (purpose : String) : Session :=
  { attr_id := attr_id
    purpose := purpose
    guest_token := guest_token
    auth_result := none }

/-- One row of the `session` table (spec section 6): `session_id` is the
unique key and equals `guest_token.id`; `last_activity` is the
server-assigned timestamp, in seconds. -/
structure Row where
  session_id : String
  room_id : String
  domain : String
  redirect_url : String
  purpose : String
  name : String
  instance_ : String
  attr_id : String
  auth_result : Option String
  last_activity : Int
deriving DecidableEq, Repr

/-- The row written by the INSERT of `Session::persist` (`src/session.rs`
lines 42-66): each column receives the bound parameter, `domain` the
`to_string` form, `last_activity` the server clock `now()`. -/
def rowOfSession (this : Session) (now : Int) : Row :=
  { session_id := this.guest_token.id
    room_id := this.guest_token.room_id
    domain := this.guest_token.domain.to_string
    redirect_url := this.guest_token.redirect_url
    purpose := this.purpose
    name := this.guest_token.name
    instance_ := this.guest_token.instance_
    attr_id := this.attr_id
    auth_result := this.auth_result
    last_activity := now }

/-- SQLSTATE of `postgres::error::SqlState::UNIQUE_VIOLATION`. -/
def uniqueViolation : String := "23505"

/-- The INSERT statement of `Session::persist` as executed by the backing
store: the store enforces uniqueness of `session_id`, so the statement fails
with a unique-key violation (and leaves the table unchanged) when a row with
the same `session_id` exists, and otherwise appends exactly the new row.  The
result carries the SQLSTATE code on failure. -/
def execInsert (this : Session) (now : Int) (db : List Row) :
    List Row × Except String Nat :=
  if db.any (fun r => r.session_id == this.guest_token.id) then
    (db, .error uniqueViolation)
  else
    (db ++ [rowOfSession this now], .ok 1)

/-- The error translation of `Session::persist` (`src/session.rs` lines
70-76): a unique-key violation becomes `BadRequest "A session with that ID
already exists"` (the spec's `Conflict`); any other backing-store error
passes through as a storage error. -/
def persistMapErr (code : String) : Error :=
  if code == uniqueViolation then
    Error.BadRequest "A session with that ID already exists"
  else
    Error.StorageError code

/-- `Session::persist` (`src/session.rs` lines 38-78): run the INSERT, then
translate its error.  Returns the store after the call and the call's
result. -/
def Session.persist (this : Session) (now : Int) (db : List Row) :
    List Row × Except Error Unit :=
  let res := execInsert this now db
  (res.1,
    match res.2 with
    | .ok _ => .ok ()
    | .error code => .error (persistMapErr code))

/-- The WHERE clause of `Session::register_auth_result`
(`src/session.rs` lines 92-93): `auth_result IS NULL AND attr_id = $2`. -/
def eligible (attr_id : String) (r : Row) : Bool :=
  r.auth_result.isNone && r.attr_id == attr_id

/-- The SET clause of `Session::register_auth_result` (`src/session.rs` line
91) applied to one row: rows matching the WHERE clause get
`(auth_result, last_activity) = ($1, now())`, all other rows are untouched. -/
def regUpdateRow (attr_id auth_result : String) (now : Int) (r : Row) : Row :=
  if eligible attr_id r then
    { r with auth_result := some auth_result, last_activity := now }
  else r

/-- `Session::register_auth_result` (`src/session.rs` lines 82-103): one
conditional UPDATE; `n` is the affected-row count reported by the store
(the number of rows matching the WHERE clause); `Ok` exactly when `n = 1`,
`NotFound` otherwise.  Returns the store after the call and the result. -/
def Session.register_auth_result (attr_id auth_result : String) (now : Int)
    (db : List Row) : List Row × Except Error Unit :=
  let db2 := db.map (regUpdateRow attr_id auth_result now)
  let n := db.countP (eligible attr_id)
  (db2, if n == 1 then .ok () else .error Error.NotFound)

/-- Decoding of one returned row back into a `Session`
(`src/session.rs` lines 131-147): re-parse the stored domain string with
`SessionDomain::from_str` (propagating its error) and rebuild the
`GuestToken` and `Session` from the columns. -/
def decodeRow (r : Row) : Except Error Session :=
  match SessionDomain.from_str r.domain with
  | .error e => .error e
  | .ok domain =>
    .ok { guest_token :=
            { id := r.session_id
              room_id := r.room_id
              domain := domain
              redirect_url := r.redirect_url
              name := r.name
              instance_ := r.instance_ }
          purpose := r.purpose
          attr_id := r.attr_id
          auth_result := r.auth_result }

/-- The `collect::<Result<Vec<Session>, Error>>` over the returned rows
(`src/session.rs` lines 130-148): decode each row in order, aborting with
the first decoding error. -/
def decodeRows : List Row → Except Error (List Session)
  | [] => .ok []
  | r :: rs =>
    match decodeRow r with
    | .error e => .error e
    | .ok s =>
      match decodeRows rs with
      | .error e => .error e
      | .ok ss => .ok (s :: ss)

/-- The SET clause of the UPDATE in `Session::find_by_room_id`
(`src/session.rs` lines 111-113) applied to one row: rows with the given
`room_id` get `last_activity = now()`, all other rows are untouched. -/
def refreshRow (room_id : String) (now : Int) (r : Row) : Row :=
  if r.room_id == room_id then { r with last_activity := now } else r

/-- `Session::find_by_room_id` (`src/session.rs` lines 106-153): one
UPDATE ... RETURNING statement that refreshes `last_activity` on every row of
the room and returns the updated rows; `NotFound` when no row matched,
otherwise the rows decoded by `decodeRow` (first error aborts the call).
Returns the store after the call and the result. -/
def Session.find_by_room_id (room_id : String) (now : Int) (db : List Row) :
    List Row × Except Error (List Session) :=
  let db2 := db.map (refreshRow room_id now)
  let rows := db2.filter (fun r => r.room_id == room_id)
  (db2,
    if rows.isEmpty then .error Error.NotFound
    else decodeRows rows)

/-- One hour, the idle-expiry threshold of `clean_db`, in seconds. -/
def oneHour : Int := 3600

/-- `clean_db` (`src/session.rs` lines 157-166): DELETE every row with
`last_activity < now() - INTERVAL '1 hour'`, i.e. keep exactly the rows with
`now - oneHour ≤ last_activity`. -/
def clean_db (now : Int) (db : List Row) : List Row :=
  db.filter (fun r => !(decide (r.last_activity < now - oneHour)))

/-! ## Configuration (`src/config.rs`)

The key-material declaration types (`EncryptionKeyConfig`, `SignKeyConfig`)
and the capability construction (`TryFrom` on boxed `JweDecrypter` /
`JwsVerifier` / `JwsSigner`, `HmacJwsAlgorithm::Hs256.verifier_from_bytes`)
live in the external `id_contact_jwt` and `josekit` crates.  They are kept
abstract: a `Resolvers` record supplies one fallible resolution function per
capability kind, and `config.rs`'s `TryFrom` implementations are embedded as
functions of those resolvers.  The `auth_during_comm` feature is taken as
enabled, matching the spec's extended mode. -/

/-- The key family discriminator of a key declaration (spec section 6:
`{type: EC|RSA|OKP|oct, key: <PEM or secret text>}`). -/
inductive KeyType where
  | EC
  | RSA
  | OKP
  | oct
deriving DecidableEq, Repr

/-- A declarative key entry: discriminator plus raw key text. -/
structure KeyMaterialEntry where
  keyType : KeyType
  key : String
deriving DecidableEq, Repr

/-- `id_contact_jwt::EncryptionKeyConfig`. -/
abbrev EncryptionKeyConfig := KeyMaterialEntry

/-- `id_contact_jwt::SignKeyConfig`. -/
abbrev SignKeyConfig := KeyMaterialEntry

/-- Abstract decryption capability (`Box<dyn JweDecrypter>`); carries only
the declaration it was resolved from. -/
structure JweDecrypter where
  src : EncryptionKeyConfig
deriving DecidableEq, Repr

/-- Abstract verification capability (`Box<dyn JwsVerifier>`); carries only
the declaration text it was resolved from (a PEM key or an HMAC secret). -/
structure JwsVerifier where
  src : String
deriving DecidableEq, Repr

/-- Abstract signing capability (`Box<dyn JwsSigner>`). -/
structure JwsSigner where
  src : SignKeyConfig
deriving DecidableEq, Repr

/-- The external resolution functions, one per capability construction used
by `config.rs`; `none` models the external call returning `Err` (for the
spec, an `InvalidKeyMaterial` failure of that entry). -/
structure Resolvers where
  /-- `Box::<dyn JweDecrypter>::try_from` on an `EncryptionKeyConfig`. -/
  decrypterOf : EncryptionKeyConfig → Option JweDecrypter
  /-- `Box::<dyn JwsVerifier>::try_from` on a `SignKeyConfig`. -/
  verifierOf : SignKeyConfig → Option JwsVerifier
  /-- `Box::<dyn JwsSigner>::try_from` on a `SignKeyConfig`. -/
  signerOf : SignKeyConfig → Option JwsSigner
  /-- `HmacJwsAlgorithm::Hs256.verifier_from_bytes` on a secret string. -/
  hmacVerifierOf : String → Option JwsVerifier

/-- `RawAuthDuringCommConfig` (`src/config.rs` lines 103-120). -/
structure RawAuthDuringCommConfig where
  core_url : String
  widget_url : String
  display_name : String
  widget_signing_privkey : SignKeyConfig
  start_auth_signing_privkey : SignKeyConfig
  start_auth_key_id : String
  guest_signature_secret : String
  host_signature_secret : String
deriving DecidableEq, Repr

/-- `AuthDuringCommConfig` (`src/config.rs` lines 124-133). -/
structure AuthDuringCommConfig where
  core_url : String
  widget_url : String
  display_name : String
  widget_signer : JwsSigner
  start_auth_signer : JwsSigner
  start_auth_key_id : String
  guest_validator : JwsVerifier
  host_validator : JwsVerifier
deriving DecidableEq, Repr

/-- `RawConfig` (`src/config.rs` lines 14-29). -/
structure RawConfig where
  internal_url : String
  external_url : Option String
  decryption_privkey : EncryptionKeyConfig
  signature_pubkey : SignKeyConfig
  auth_during_comm_config : RawAuthDuringCommConfig
deriving DecidableEq, Repr

/-- `Config` (`src/config.rs` lines 34-44). -/
structure Config where
  internal_url : String
  external_url : Option String
  decrypter : JweDecrypter
  validator : JwsVerifier
  auth_during_comm_config : AuthDuringCommConfig
deriving DecidableEq, Repr

/-- Outcome of a fallible Rust construction that may also panic: `ok` and
`err` are the two sides of the returned `Result`; `panicked` models an
`unwrap()` on an `Err` value aborting the construction. -/
inductive BuildOutcome (α : Type) where
  | ok (a : α)
  | err (e : Error)
  | panicked
deriving DecidableEq, Repr

/-- `TryFrom<RawAuthDuringCommConfig> for AuthDuringCommConfig`
(`src/config.rs` lines 136-160), in the source's evaluation order: the guest
and host HMAC validators are built first and their results `unwrap()`ed (an
external failure there panics); then the widget and start-auth signers are
built with `?` (an external failure there returns `Err`, the spec's
`InvalidKeyMaterial`). -/
def AuthDuringCommConfig.try_from (res : Resolvers)
    (raw : RawAuthDuringCommConfig) : BuildOutcome AuthDuringCommConfig :=
  match res.hmacVerifierOf raw.guest_signature_secret with
  | none => .panicked
  | some guest_validator =>
    match res.hmacVerifierOf raw.host_signature_secret with
    | none => .panicked
    | some host_validator =>
      match res.signerOf raw.widget_signing_privkey with
      | none => .err Error.InvalidKeyMaterial
      | some widget_signer =>
        match res.signerOf raw.start_auth_signing_privkey with
        | none => .err Error.InvalidKeyMaterial
        | some start_auth_signer =>
          .ok { core_url := raw.core_url
                widget_url := raw.widget_url
                display_name := raw.display_name
                widget_signer := widget_signer
                start_auth_signer := start_auth_signer
                start_auth_key_id := raw.start_auth_key_id
                guest_validator := guest_validator
                host_validator := host_validator }

/-- `TryFrom<RawConfig> for Config` (`src/config.rs` lines 47-64), in the
source's evaluation order: the extension configuration first (propagating its
failure), then the decrypter, then the validator, each with `?`. -/
def Config.try_from (res : Resolvers) (raw : RawConfig) : BuildOutcome Config :=
  match AuthDuringCommConfig.try_from res raw.auth_during_comm_config with
  | .panicked => .panicked
  | .err e => .err e
  | .ok adcc =>
    match res.decrypterOf raw.decryption_privkey with
    | none => .err Error.InvalidKeyMaterial
    | some decrypter =>
      match res.verifierOf raw.signature_pubkey with
      | none => .err Error.InvalidKeyMaterial
      | some validator =>
        .ok { internal_url := raw.internal_url
              external_url := raw.external_url
              decrypter := decrypter
              validator := validator
              auth_during_comm_config := adcc }

/-- The accessor `Config::internal_url()` (`src/config.rs` lines 75-77). -/
def Config.internalUrl (c : Config) : String :=
  c.internal_url

/-- The accessor `Config::external_url()` (`src/config.rs` lines 79-84):
the configured external URL, falling back to the internal URL when unset. -/
def Config.externalUrl (c : Config) : String :=
  match c.external_url with
  | some external_url => external_url
  | none => c.internal_url

/-! ## Concrete evaluation data

Concrete sessions, rows, stores and configurations used to evaluate the
embedded operations on closed inputs. -/

/-- A concrete guest token. -/
def demoToken : GuestToken :=
  { id := "s1"
    room_id := "r1"
    domain := .Guest
    redirect_url := "https://redirect.example.com"
    name := "Alice"
    instance_ := "inst1" }

/-- A concrete freshly created session (id `s1`, attr_id `a1`). -/
def demoSession : Session :=
  Session.new demoToken "a1" "chat"

/-- A second session sharing `demoSession`'s guest_token.id `s1`. -/
def demoSession2 : Session :=
  Session.new { demoToken with name := "Bob" } "a2" "chat"

/-- A session with a fresh id `s2` but sharing `demoSession`'s attr_id
`a1`. -/
def demoSession3 : Session :=
  Session.new { demoToken with id := "s2", name := "Carol" } "a1" "chat"

/-- The row `demoSession` persists at time 0. -/
def demoRow : Row := rowOfSession demoSession 0

/-- `demoRow` with its stored domain string corrupted to a value outside the
closed `SessionDomain` enumeration. -/
def demoCorruptRow : Row := { demoRow with domain := "corrupt" }

/-- A store with two pending rows sharing attr_id `a1`. -/
def demoStore2 : List Row := [rowOfSession demoSession 0, rowOfSession demoSession3 0]

/-- A concrete key declaration with non-empty key text. -/
def demoKey : KeyMaterialEntry := { keyType := .EC, key := "demo-pem-key" }

/-- A 40-character guest secret (long enough for an HS256 key). -/
def demoGuestSecret : String := "fliepfliepfliepfliepfliepfliepfliepfliep"

/-- A 40-character host secret. -/
def demoHostSecret : String := "flapflapflapflapflapflapflapflapflapflap"

/-- A concrete assignment of the external resolution functions: the key-config
resolutions fail exactly on empty key text (a malformed declaration), and the
HMAC verifier construction fails exactly on secrets shorter than 32 bytes
(josekit's HS256 minimum key size, which `verifier_from_bytes` rejects). -/
def demoResolvers : Resolvers :=
  { decrypterOf := fun e => if e.key.isEmpty then none else some { src := e }
    verifierOf := fun e => if e.key.isEmpty then none else some { src := e.key }
    signerOf := fun e => if e.key.isEmpty then none else some { src := e }
    hmacVerifierOf := fun s => if s.length < 32 then none else some { src := s } }

/-- A concrete extension configuration with all entries resolvable under
`demoResolvers`. -/
def demoRawADC : RawAuthDuringCommConfig :=
  { core_url := "https://core.example.com"
    widget_url := "https://widget.example.com"
    display_name := "Example Comm"
    widget_signing_privkey := demoKey
    start_auth_signing_privkey := demoKey
    start_auth_key_id := "key1"
    guest_signature_secret := demoGuestSecret
    host_signature_secret := demoHostSecret }

/-- A concrete raw configuration with every entry resolvable under
`demoResolvers` and an external URL set. -/
def demoRawGood : RawConfig :=
  { internal_url := "https://internal.example.com"
    external_url := some "https://external.example.com"
    decryption_privkey := demoKey
    signature_pubkey := demoKey
    auth_during_comm_config := demoRawADC }

/-- `demoRawGood` with a guest secret too short to resolve under
`demoResolvers`. -/
def demoRawBadGuest : RawConfig :=
  { demoRawGood with
    auth_during_comm_config := { demoRawADC with guest_signature_secret := "short" } }

/-- `demoRawGood` with a malformed (empty) widget signing key declaration. -/
def demoRawBadWidget : RawConfig :=
  { demoRawGood with
    auth_during_comm_config :=
      { demoRawADC with widget_signing_privkey := { keyType := .EC, key := "" } } }

/-- The bundle `Config.try_from demoResolvers demoRawGood` produces. -/
def demoConfig : Config :=
  { internal_url := "https://internal.example.com"
    external_url := some "https://external.example.com"
    decrypter := { src := demoKey }
    validator := { src := demoKey.key }
    auth_during_comm_config :=
      { core_url := "https://core.example.com"
        widget_url := "https://widget.example.com"
        display_name := "Example Comm"
        widget_signer := { src := demoKey }
        start_auth_signer := { src := demoKey }
        start_auth_key_id := "key1"
        guest_validator := { src := demoGuestSecret }
        host_validator := { src := demoHostSecret } } }

/-! ## Helper lemmas -/

theorem SessionDomain.from_str_to_string (d : SessionDomain) :
    SessionDomain.from_str d.to_string = .ok d := by
  cases d <;> rfl

theorem SessionDomain.to_string_inj :
    ∀ d1 d2 : SessionDomain, d1.to_string = d2.to_string → d1 = d2 := by
  intro d1 d2
  cases d1 <;> cases d2 <;> decide

theorem SessionDomain.from_str_ok {s : String} {d : SessionDomain}
    (h : SessionDomain.from_str s = .ok d) : s = d.to_string := by
  rw [SessionDomain.from_str] at h
  split_ifs at h with h1 h2
  · cases h; rw [h1]; rfl
  · cases h; rw [h2]; rfl

theorem SessionDomain.from_str_err {s : String} {e : Error}
    (h : SessionDomain.from_str s = .error e) : e = Error.InvalidToken := by
  rw [SessionDomain.from_str] at h
  split_ifs at h
  cases h
  rfl

theorem decodeRow_rowOfSession (s : Session) (n : Int) :
    decodeRow (rowOfSession s n) = .ok s := by
  cases s with
  | mk g ar ai pu =>
    cases g
    simp [decodeRow, rowOfSession, SessionDomain.from_str_to_string]

theorem decodeRow_ok_domain {r : Row} {s : Session} (h : decodeRow r = .ok s) :
    r.domain = s.guest_token.domain.to_string := by
  rw [decodeRow] at h
  cases hf : SessionDomain.from_str r.domain with
  | error e => rw [hf] at h; cases h
  | ok d =>
    rw [hf] at h
    cases h
    exact SessionDomain.from_str_ok hf

theorem decodeRow_err {r : Row} {e : Error} (h : decodeRow r = .error e) :
    e = Error.InvalidToken := by
  rw [decodeRow] at h
  cases hf : SessionDomain.from_str r.domain with
  | error e2 =>
    rw [hf] at h
    cases h
    exact SessionDomain.from_str_err hf
  | ok d => rw [hf] at h; cases h

theorem decodeRows_ok_mem {l : List Row} {ss : List Session}
    (h : decodeRows l = .ok ss) : ∀ r ∈ l, ∃ s, decodeRow r = .ok s := by
  induction l generalizing ss with
  | nil => intro r hr; cases hr
  | cons r0 rs ih =>
    intro r hr
    rw [decodeRows] at h
    cases hd : decodeRow r0 with
    | error e => rw [hd] at h; cases h
    | ok s0 =>
      rw [hd] at h
      cases ht : decodeRows rs with
      | error e => rw [ht] at h; cases h
      | ok ss0 =>
        rw [ht] at h
        rcases List.mem_cons.mp hr with hr0 | hrs
        · exact ⟨s0, hr0 ▸ hd⟩
        · exact ih ht r hrs

theorem decodeRows_err {l : List Row} {e : Error}
    (h : decodeRows l = .error e) : e = Error.InvalidToken := by
  induction l generalizing e with
  | nil => cases h
  | cons r0 rs ih =>
    rw [decodeRows] at h
    cases hd : decodeRow r0 with
    | error e2 =>
      rw [hd] at h
      cases h
      exact decodeRow_err hd
    | ok s0 =>
      rw [hd] at h
      cases ht : decodeRows rs with
      | error e2 =>
        rw [ht] at h
        cases h
        exact ih ht
      | ok ss0 => rw [ht] at h; cases h

theorem decodeRows_persisted (l : List Row)
    (hp : ∀ r ∈ l, ∃ s n, r = rowOfSession s n) :
    ∃ ss, decodeRows l = .ok ss ∧ ss.length = l.length ∧
      ∀ i (h1 : i < l.length) (h2 : i < ss.length),
        rowOfSession (ss.get ⟨i, h2⟩) ((l.get ⟨i, h1⟩).last_activity)
          = l.get ⟨i, h1⟩ := by
  induction l with
  | nil => exact ⟨[], rfl, rfl, fun i h1 => absurd h1 (by simp)⟩
  | cons r0 rs ih =>
    obtain ⟨s0, n0, hr0⟩ := hp r0 (List.mem_cons_self r0 rs)
    obtain ⟨ss, hss, hlen, hpos⟩ := ih (fun r hr => hp r (List.mem_cons_of_mem r0 hr))
    refine ⟨s0 :: ss, ?_, by simp [hlen], ?_⟩
    · rw [decodeRows, hr0, decodeRow_rowOfSession, hss]
    · intro i h1 h2
      cases i with
      | zero => subst hr0; rfl
      | succ j =>
        exact hpos j (by simpa using h1) (by simpa using h2)

theorem rowOfSession_inj {s1 s2 : Session} {n : Int}
    (h : rowOfSession s1 n = rowOfSession s2 n) : s1 = s2 := by
  cases s1 with
  | mk g1 ar1 ai1 pu1 =>
    cases g1
    cases s2 with
    | mk g2 ar2 ai2 pu2 =>
      cases g2
      simp only [rowOfSession, Row.mk.injEq] at h
      obtain ⟨h1, h2, h3, h4, h5, h6, h7, h8, h9⟩ := h
      simp_all [Session.mk.injEq, GuestToken.mk.injEq]
      exact SessionDomain.to_string_inj _ _ h3

theorem eligible_regUpdateRow (a v : String) (now : Int) (r : Row) :
    eligible a (regUpdateRow a v now r) = false := by
  rw [regUpdateRow]
  split
  · simp [eligible]
  · rename_i hne
    simpa using hne

theorem countP_after_register (a v : String) (now : Int) (db : List Row) :
    (db.map (regUpdateRow a v now)).countP (eligible a) = 0 := by
  rw [List.countP_eq_zero]
  intro r hr
  rw [List.mem_map] at hr
  obtain ⟨r0, _, rfl⟩ := hr
  simp [eligible_regUpdateRow]

theorem refreshRow_room_id (rid : String) (now : Int) (r : Row) :
    (refreshRow rid now r).room_id = r.room_id := by
  rw [refreshRow]; split <;> rfl

theorem refreshRow_domain (rid : String) (now : Int) (r : Row) :
    (refreshRow rid now r).domain = r.domain := by
  rw [refreshRow]; split <;> rfl

theorem refreshRow_auth_result (rid : String) (now : Int) (r : Row) :
    (refreshRow rid now r).auth_result = r.auth_result := by
  rw [refreshRow]; split <;> rfl

theorem register_fst (attr v : String) (now : Int) (db : List Row) :
    (Session.register_auth_result attr v now db).1
      = db.map (regUpdateRow attr v now) := rfl

theorem register_snd (attr v : String) (now : Int) (db : List Row) :
    (Session.register_auth_result attr v now db).2
      = if db.countP (eligible attr) == 1 then .ok ()
        else .error Error.NotFound := rfl

theorem find_rows_eq (db : List Row) (rid : String) (now : Int) :
    (db.map (refreshRow rid now)).filter (fun r => r.room_id == rid)
      = (db.filter (fun r => r.room_id == rid)).map (refreshRow rid now) := by
  rw [List.filter_map]
  congr 1
  exact List.filter_congr (fun r _ => by simp [Function.comp, refreshRow_room_id])

theorem find_fst (rid : String) (now : Int) (db : List Row) :
    (Session.find_by_room_id rid now db).1 = db.map (refreshRow rid now) := rfl

theorem find_snd (rid : String) (now : Int) (db : List Row) :
    (Session.find_by_room_id rid now db).2
      = if ((db.map (refreshRow rid now)).filter
              (fun r => r.room_id == rid)).isEmpty then
          .error Error.NotFound
        else
          decodeRows ((db.map (refreshRow rid now)).filter
            (fun r => r.room_id == rid)) := rfl

theorem refreshRow_rowOfSession (rid : String) (now n : Int) (s : Session)
    (h : s.guest_token.room_id = rid) :
    refreshRow rid now (rowOfSession s n) = rowOfSession s now := by
  simp [refreshRow, rowOfSession, h]

/-! ## Claim theorems -/

/-- C1 (counterexample): the claim quantifies over every store state, but on
a store already holding a row with the shared guest_token.id the FIRST
`persist` of the pair does not succeed: it fails with `Conflict` (the
`BadRequest` of `src/session.rs` line 72) and leaves the store unchanged. -/
theorem persist_existing_id_cex :
    (Session.persist demoSession 1 [rowOfSession demoSession 0]).2 ≠ .ok () ∧
    (Session.persist demoSession 1 [rowOfSession demoSession 0]).2
      = .error (Error.BadRequest "A session with that ID already exists") ∧
    (Session.persist demoSession 1 [rowOfSession demoSession 0]).1
      = [rowOfSession demoSession 0] := by
  refine ⟨by decide, by decide, by decide⟩

/-- C1 (amended): for every store state in which no row carries the shared
guest_token.id, the first `persist` succeeds, appending exactly one new row;
the second `persist` with the same guest_token.id fails with `Conflict`
(`BadRequest "A session with that ID already exists"`) and leaves the store
unchanged (no partial row); and `persist`'s error translation maps every
backing-store failure other than the unique-key violation to a storage
error. -/
theorem persist_unique_insert (db : List Row) (s1 s2 : Session) (n1 n2 : Int)
    (hid : s2.guest_token.id = s1.guest_token.id)
    (hfresh : ∀ r ∈ db, r.session_id ≠ s1.guest_token.id) :
    (Session.persist s1 n1 db).1 = db ++ [rowOfSession s1 n1] ∧
    (Session.persist s1 n1 db).2 = .ok () ∧
    (Session.persist s2 n2 (db ++ [rowOfSession s1 n1])).1
      = db ++ [rowOfSession s1 n1] ∧
    (Session.persist s2 n2 (db ++ [rowOfSession s1 n1])).2
      = .error (Error.BadRequest "A session with that ID already exists") ∧
    (∀ code : String, code ≠ uniqueViolation →
      persistMapErr code = Error.StorageError code) := by
  have hany1 : db.any (fun r => r.session_id == s1.guest_token.id) = false := by
    rw [List.any_eq_false]
    intro r hr
    simpa using hfresh r hr
  have hany2 : (db ++ [rowOfSession s1 n1]).any
      (fun r => r.session_id == s2.guest_token.id) = true := by
    rw [List.any_eq_true]
    exact ⟨rowOfSession s1 n1, by simp, by simp [rowOfSession, hid]⟩
  refine ⟨?_, ?_, ?_, ?_, ?_⟩
  · simp [Session.persist, execInsert, hany1]
  · simp [Session.persist, execInsert, hany1]
  · simp [Session.persist, execInsert, hany2]
  · simp [Session.persist, execInsert, hany2, persistMapErr]
  · intro code hc
    simp [persistMapErr, hc]

/-- C1 (witness): on the empty store, persisting `demoSession` succeeds and
persisting `demoSession2` (same guest_token.id `s1`) into the resulting
store fails with `Conflict`. -/
theorem persist_unique_insert_witness :
    (Session.persist demoSession 5 []).2 = .ok () ∧
    (Session.persist demoSession2 6 [rowOfSession demoSession 5]).2
      = .error (Error.BadRequest "A session with that ID already exists") := by
  have h := persist_unique_insert [] demoSession demoSession2 5 6 rfl
    (by intro r hr; cases hr)
  exact ⟨h.2.1, by simpa using h.2.2.2.1⟩

/-- C2: `register_auth_result` succeeds exactly when exactly one row matches
`attr_id = given AND auth_result IS NULL`, and otherwise fails with
`NotFound`; both the absence of any row with the attr_id and the matching
row being already resolved produce the same `NotFound` value, so the two
causes are indistinguishable to the caller. -/
theorem register_auth_result_conditional (db : List Row) (attr v : String)
    (now : Int) :
    ((Session.register_auth_result attr v now db).2 = .ok ()
      ↔ db.countP (eligible attr) = 1) ∧
    ((∀ r ∈ db, r.attr_id ≠ attr) →
      (Session.register_auth_result attr v now db).2 = .error Error.NotFound) ∧
    ((∀ r ∈ db, r.attr_id = attr → r.auth_result ≠ none) →
      (Session.register_auth_result attr v now db).2 = .error Error.NotFound) := by
  refine ⟨?_, ?_, ?_⟩
  · by_cases hn : db.countP (eligible attr) = 1 <;>
      simp [Session.register_auth_result, hn]
  · intro h
    have h0 : db.countP (eligible attr) = 0 := by
      rw [List.countP_eq_zero]
      intro r hr
      simp [eligible]
      intro _
      exact h r hr
    simp [Session.register_auth_result, h0]
  · intro h
    have h0 : db.countP (eligible attr) = 0 := by
      rw [List.countP_eq_zero]
      intro r hr
      simp [eligible]
      intro hnone hattr
      exact absurd hnone (h r hr hattr)
    simp [Session.register_auth_result, h0]

/-- C2 (witness): on a store with one pending row with attr_id `a1`, the
call succeeds; on the empty store, it fails with `NotFound`. -/
theorem register_auth_result_conditional_witness :
    (Session.register_auth_result "a1" "v" 5 [demoRow]).2 = .ok () ∧
    (Session.register_auth_result "a1" "v" 5 []).2 = .error Error.NotFound := by
  refine ⟨((register_auth_result_conditional [demoRow] "a1" "v" 5).1).mpr (by decide), ?_⟩
  exact (register_auth_result_conditional [] "a1" "v" 5).2.1 (by intro r hr; cases hr)

/-- C3 (counterexample): the claim quantifies over every store state, but on
the empty store two calls to `register_auth_result` with the same attr_id
both fail with `NotFound` — it is not the case that exactly one call
succeeds. -/
theorem register_two_calls_cex :
    (Session.register_auth_result "a1" "v1" 1 []).2 = .error Error.NotFound ∧
    (Session.register_auth_result "a1" "v2" 2
        (Session.register_auth_result "a1" "v1" 1 []).1).2
      = .error Error.NotFound := by
  exact ⟨rfl, rfl⟩

/-- C3 (amended): auth_result is never overwritten by any operation (a row
whose auth_result is present is untouched by `register_auth_result`'s
per-row update, `find_by_room_id`'s refresh preserves auth_result,
`persist` keeps every existing row, and `clean_db` only ever deletes rows);
and for any store state holding exactly one row that matches the attr_id
with absent auth_result, of two `register_auth_result` calls with that
attr_id exactly the first-executed call succeeds, the second fails with
`NotFound` and leaves the store unchanged, and the matched row's stored
auth_result equals the value supplied by the succeeding call. -/
theorem register_auth_result_at_most_once :
    (∀ (a v : String) (now : Int) (r : Row) (w : String),
      r.auth_result = some w → regUpdateRow a v now r = r) ∧
    (∀ (rid : String) (now : Int) (r : Row),
      (refreshRow rid now r).auth_result = r.auth_result) ∧
    (∀ (s : Session) (now : Int) (db : List Row) (r : Row),
      r ∈ db → r ∈ (Session.persist s now db).1) ∧
    (∀ (now : Int) (db : List Row) (r : Row),
      r ∈ clean_db now db → r ∈ db) ∧
    (∀ (db : List Row) (attr v1 v2 : String) (n1 n2 : Int),
      db.countP (eligible attr) = 1 →
      (Session.register_auth_result attr v1 n1 db).2 = .ok () ∧
      (Session.register_auth_result attr v2 n2
          (Session.register_auth_result attr v1 n1 db).1).2
        = .error Error.NotFound ∧
      (Session.register_auth_result attr v2 n2
          (Session.register_auth_result attr v1 n1 db).1).1
        = (Session.register_auth_result attr v1 n1 db).1 ∧
      (∀ i (hi : i < db.length)
          (hi2 : i < (Session.register_auth_result attr v1 n1 db).1.length),
        eligible attr (db.get ⟨i, hi⟩) = true →
          ((Session.register_auth_result attr v1 n1 db).1.get ⟨i, hi2⟩).auth_result
            = some v1)) := by
  refine ⟨?_, ?_, ?_, ?_, ?_⟩
  · intro a v now r w hw
    simp [regUpdateRow, eligible, hw]
  · intro rid now r
    exact refreshRow_auth_result rid now r
  · intro s now db r hr
    simp only [Session.persist, execInsert]
    split
    · exact hr
    · exact List.mem_append.mpr (Or.inl hr)
  · intro now db r hr
    exact (List.mem_filter.mp hr).1
  · intro db attr v1 v2 n1 n2 hcount
    have hzero : ((Session.register_auth_result attr v1 n1 db).1).countP
        (eligible attr) = 0 :=
      countP_after_register attr v1 n1 db
    have hfix : ∀ r ∈ (Session.register_auth_result attr v1 n1 db).1,
        regUpdateRow attr v2 n2 r = r := by
      intro r hr
      have : eligible attr r = false := by
        have := List.countP_eq_zero.mp hzero r hr
        simpa using this
      simp [regUpdateRow, this]
    refine ⟨by rw [register_snd, hcount]; rfl, ?_, ?_, ?_⟩
    · rw [register_snd, hzero]
      rfl
    · show ((Session.register_auth_result attr v1 n1 db).1).map
          (regUpdateRow attr v2 n2) = (Session.register_auth_result attr v1 n1 db).1
      calc ((Session.register_auth_result attr v1 n1 db).1).map
            (regUpdateRow attr v2 n2)
          = ((Session.register_auth_result attr v1 n1 db).1).map id :=
            List.map_congr_left hfix
        _ = (Session.register_auth_result attr v1 n1 db).1 := List.map_id _
    · intro i hi hi2 helig
      have hget : (Session.register_auth_result attr v1 n1 db).1.get ⟨i, hi2⟩
          = regUpdateRow attr v1 n1 (db.get ⟨i, hi⟩) := by
        simp [Session.register_auth_result, List.get_eq_getElem, List.getElem_map]
      rw [hget]
      rw [List.get_eq_getElem] at helig
      simp [regUpdateRow, helig]

/-- C3 (witness): on a store with exactly one pending row with attr_id `a1`,
the first call succeeds and the second fails with `NotFound`. -/
theorem register_auth_result_at_most_once_witness :
    (Session.register_auth_result "a1" "v1" 5 [demoRow]).2 = .ok () ∧
    (Session.register_auth_result "a1" "v2" 6
        (Session.register_auth_result "a1" "v1" 5 [demoRow]).1).2
      = .error Error.NotFound := by
  have h := register_auth_result_at_most_once.2.2.2.2 [demoRow] "a1" "v1" "v2" 5 6
    (by decide)
  exact ⟨h.1, h.2.1⟩

/-- C9: when two or more rows match the attr_id with absent auth_result,
`register_auth_result` still applies its update to every matching row
(setting auth_result and last_activity) but reports `NotFound`, because
success is reported only for an affected-row count of exactly one; the
updates are not rolled back. -/
theorem register_multi_match_not_found (db : List Row) (attr v : String)
    (now : Int) (h2 : 2 ≤ db.countP (eligible attr)) :
    (Session.register_auth_result attr v now db).2 = .error Error.NotFound ∧
    (Session.register_auth_result attr v now db).1
      = db.map (regUpdateRow attr v now) ∧
    (∀ i (hi : i < db.length)
        (hi2 : i < (Session.register_auth_result attr v now db).1.length),
      eligible attr (db.get ⟨i, hi⟩) = true →
        ((Session.register_auth_result attr v now db).1.get ⟨i, hi2⟩).auth_result
          = some v ∧
        ((Session.register_auth_result attr v now db).1.get ⟨i, hi2⟩).last_activity
          = now) := by
  have hne : db.countP (eligible attr) ≠ 1 := by omega
  refine ⟨?_, rfl, ?_⟩
  · rw [register_snd]
    simp [hne]
  · intro i hi hi2 helig
    have hget : (Session.register_auth_result attr v now db).1.get ⟨i, hi2⟩
        = regUpdateRow attr v now (db.get ⟨i, hi⟩) := by
      simp [Session.register_auth_result, List.get_eq_getElem, List.getElem_map]
    rw [hget]
    rw [List.get_eq_getElem] at helig
    simp [regUpdateRow, helig]

/-- C9 (witness): a store with two pending rows sharing attr_id `a1`: the
call reports `NotFound` although both rows were updated. -/
theorem register_multi_match_not_found_witness :
    (Session.register_auth_result "a1" "v" 9 demoStore2).2
      = .error Error.NotFound ∧
    (Session.register_auth_result "a1" "v" 9 demoStore2).1
      = demoStore2.map (regUpdateRow "a1" "v" 9) := by
  have h := register_multi_match_not_found demoStore2 "a1" "v" 9 (by decide)
  exact ⟨h.1, h.2.1⟩

/-- C10: whenever `register_auth_result` succeeds, exactly one row matched,
and in the same statement that row's auth_result is set and its
last_activity is set to the current time, every other column of it being
unchanged; rows that did not match are untouched. -/
theorem register_success_refreshes_activity (db : List Row) (attr v : String)
    (now : Int)
    (hok : (Session.register_auth_result attr v now db).2 = .ok ()) :
    db.countP (eligible attr) = 1 ∧
    (∀ i (hi : i < db.length)
        (hi2 : i < (Session.register_auth_result attr v now db).1.length),
      (eligible attr (db.get ⟨i, hi⟩) = true →
        (Session.register_auth_result attr v now db).1.get ⟨i, hi2⟩
          = { db.get ⟨i, hi⟩ with auth_result := some v, last_activity := now }) ∧
      (eligible attr (db.get ⟨i, hi⟩) = false →
        (Session.register_auth_result attr v now db).1.get ⟨i, hi2⟩
          = db.get ⟨i, hi⟩)) := by
  constructor
  · rw [register_snd] at hok
    by_cases hn : db.countP (eligible attr) = 1
    · exact hn
    · simp [hn] at hok
  · intro i hi hi2
    have hget : (Session.register_auth_result attr v now db).1.get ⟨i, hi2⟩
        = regUpdateRow attr v now (db.get ⟨i, hi⟩) := by
      simp [Session.register_auth_result, List.get_eq_getElem, List.getElem_map]
    rw [List.get_eq_getElem] at hget
    refine ⟨?_, ?_⟩
    · intro helig
      rw [List.get_eq_getElem] at helig
      rw [List.get_eq_getElem, hget]
      simp [regUpdateRow, helig]
    · intro helig
      rw [List.get_eq_getElem] at helig
      rw [List.get_eq_getElem, hget]
      simp [regUpdateRow, helig]

/-- C10 (witness): on a one-pending-row store, the successful call matched
exactly one row. -/
theorem register_success_refreshes_activity_witness :
    List.countP (eligible "a1") [demoRow] = 1 :=
  (register_success_refreshes_activity [demoRow] "a1" "v" 5 (by decide)).1

/-- C7: `clean_db` keeps a row exactly when it is in the store and its
last_activity is not older than the one-hour threshold (so it deletes
exactly the idle rows and leaves every other row unchanged), and running it
again immediately (same clock) changes nothing. -/
theorem clean_db_exact_and_idempotent (now : Int) (db : List Row) :
    (∀ r : Row, r ∈ clean_db now db
      ↔ (r ∈ db ∧ ¬(r.last_activity < now - oneHour))) ∧
    clean_db now (clean_db now db) = clean_db now db := by
  constructor
  · intro r
    simp [clean_db, List.mem_filter]
  · simp [clean_db, List.filter_filter]

/-- C7 (witness): at time `now = 2 * oneHour`, cleaning
`[demoRow, fresh row]` keeps exactly the fresh row, and a second cleaning is
a no-op. -/
theorem clean_db_exact_and_idempotent_witness :
    (rowOfSession demoSession3 oneHour ∈
        clean_db (2 * oneHour) [demoRow, rowOfSession demoSession3 oneHour] ∧
      demoRow ∉
        clean_db (2 * oneHour) [demoRow, rowOfSession demoSession3 oneHour]) ∧
    clean_db (2 * oneHour)
        (clean_db (2 * oneHour) [demoRow, rowOfSession demoSession3 oneHour])
      = clean_db (2 * oneHour) [demoRow, rowOfSession demoSession3 oneHour] := by
  have h := clean_db_exact_and_idempotent (2 * oneHour)
    [demoRow, rowOfSession demoSession3 oneHour]
  refine ⟨⟨(h.1 _).mpr ⟨by simp, by decide⟩, ?_⟩, h.2⟩
  intro hmem
  have := (h.1 demoRow).mp hmem
  exact this.2 (by decide)

/-- C8: for every successfully constructed bundle, the `external_url()`
accessor returns the configured external URL when one is set and falls back
to the internal URL when it is unset, and the `internal_url()` accessor
returns the configured internal URL unchanged. -/
theorem config_url_accessors (res : Resolvers) (raw : RawConfig) (c : Config)
    (h : Config.try_from res raw = .ok c) :
    c.internalUrl = raw.internal_url ∧
    (raw.external_url = none → c.externalUrl = raw.internal_url) ∧
    (∀ u, raw.external_url = some u → c.externalUrl = u) := by
  have hc : c.internal_url = raw.internal_url
      ∧ c.external_url = raw.external_url := by
    rw [Config.try_from] at h
    cases hA : AuthDuringCommConfig.try_from res raw.auth_during_comm_config with
    | panicked => rw [hA] at h; cases h
    | err e => rw [hA] at h; cases h
    | ok adcc =>
      rw [hA] at h
      cases hD : res.decrypterOf raw.decryption_privkey with
      | none => rw [hD] at h; cases h
      | some d =>
        rw [hD] at h
        cases hV : res.verifierOf raw.signature_pubkey with
        | none => rw [hV] at h; cases h
        | some vv =>
          rw [hV] at h
          cases h
          exact ⟨rfl, rfl⟩
  refine ⟨hc.1, ?_, ?_⟩
  · intro hnone
    rw [Config.externalUrl, hc.2, hnone]
    exact hc.1
  · intro u hu
    rw [Config.externalUrl, hc.2, hu]

/-- C8 (witness): the bundle built from `demoRawGood` (external URL set)
returns the configured external and internal URLs. -/
theorem config_url_accessors_witness :
    demoConfig.internalUrl = "https://internal.example.com" ∧
    demoConfig.externalUrl = "https://external.example.com" := by
  have h := config_url_accessors demoResolvers demoRawGood demoConfig (by decide)
  exact ⟨h.1, h.2.2 "https://external.example.com" rfl⟩

/-- C4 (counterexample): a failing guest-secret resolution does not make the
construction fail with `InvalidKeyMaterial`: `try_from` `unwrap()`s the
result of `verifier_from_bytes` (`src/config.rs` line 141), so the
construction aborts by panic instead of returning the error. -/
theorem config_guest_secret_cex :
    demoResolvers.hmacVerifierOf
        demoRawBadGuest.auth_during_comm_config.guest_signature_secret = none ∧
    Config.try_from demoResolvers demoRawBadGuest = .panicked ∧
    (BuildOutcome.panicked : BuildOutcome Config)
      ≠ .err Error.InvalidKeyMaterial := by
  refine ⟨by decide, by decide, by decide⟩

/-- C4 (amended): construction of the bundle is all-or-nothing. If the guest
and host secrets resolve but any of the four key-config entries (widget
signing key, start-auth signing key, decryption key, signature key) fails to
resolve, the whole construction fails with `InvalidKeyMaterial`. If the
guest or host secret fails to resolve, the construction aborts by panic
(the `unwrap()` of `src/config.rs` lines 139-144) rather than returning
`InvalidKeyMaterial`. In every case no partially-resolved bundle is
observable: a returned bundle carries exactly the successfully resolved
capability for every declared entry. -/
theorem config_all_or_nothing (res : Resolvers) (raw : RawConfig) :
    (∀ gv hv,
      res.hmacVerifierOf raw.auth_during_comm_config.guest_signature_secret
        = some gv →
      res.hmacVerifierOf raw.auth_during_comm_config.host_signature_secret
        = some hv →
      (res.signerOf raw.auth_during_comm_config.widget_signing_privkey = none ∨
       res.signerOf raw.auth_during_comm_config.start_auth_signing_privkey = none ∨
       res.decrypterOf raw.decryption_privkey = none ∨
       res.verifierOf raw.signature_pubkey = none) →
      Config.try_from res raw = .err Error.InvalidKeyMaterial) ∧
    ((res.hmacVerifierOf raw.auth_during_comm_config.guest_signature_secret
        = none ∨
      res.hmacVerifierOf raw.auth_during_comm_config.host_signature_secret
        = none) →
      Config.try_from res raw = .panicked) ∧
    (∀ c, Config.try_from res raw = .ok c →
      res.decrypterOf raw.decryption_privkey = some c.decrypter ∧
      res.verifierOf raw.signature_pubkey = some c.validator ∧
      res.signerOf raw.auth_during_comm_config.widget_signing_privkey
        = some c.auth_during_comm_config.widget_signer ∧
      res.signerOf raw.auth_during_comm_config.start_auth_signing_privkey
        = some c.auth_during_comm_config.start_auth_signer ∧
      res.hmacVerifierOf raw.auth_during_comm_config.guest_signature_secret
        = some c.auth_during_comm_config.guest_validator ∧
      res.hmacVerifierOf raw.auth_during_comm_config.host_signature_secret
        = some c.auth_during_comm_config.host_validator ∧
      c.internal_url = raw.internal_url ∧
      c.external_url = raw.external_url) := by
  cases hG : res.hmacVerifierOf raw.auth_during_comm_config.guest_signature_secret with
  | none =>
    have hP : Config.try_from res raw = .panicked := by
      rw [Config.try_from, AuthDuringCommConfig.try_from, hG]
    refine ⟨?_, fun _ => hP, ?_⟩
    · intro gv hv hgv
      cases hgv
    · intro c hc
      rw [hP] at hc
      cases hc
  | some gv0 =>
    cases hH : res.hmacVerifierOf raw.auth_during_comm_config.host_signature_secret with
    | none =>
      have hP : Config.try_from res raw = .panicked := by
        rw [Config.try_from, AuthDuringCommConfig.try_from, hG, hH]
      refine ⟨?_, fun _ => hP, ?_⟩
      · intro gv hv _ hhv
        cases hhv
      · intro c hc
        rw [hP] at hc
        cases hc
    | some hv0 =>
      cases hW : res.signerOf raw.auth_during_comm_config.widget_signing_privkey with
      | none =>
        have hE : Config.try_from res raw = .err Error.InvalidKeyMaterial := by
          rw [Config.try_from, AuthDuringCommConfig.try_from, hG, hH, hW]
        refine ⟨fun _ _ _ _ _ => hE, ?_, ?_⟩
        · intro hor
          rcases hor with hx | hx
          · cases hx
          · cases hx
        · intro c hc
          rw [hE] at hc
          cases hc
      | some w0 =>
        cases hS : res.signerOf raw.auth_during_comm_config.start_auth_signing_privkey with
        | none =>
          have hE : Config.try_from res raw = .err Error.InvalidKeyMaterial := by
            rw [Config.try_from, AuthDuringCommConfig.try_from, hG, hH, hW, hS]
          refine ⟨fun _ _ _ _ _ => hE, ?_, ?_⟩
          · intro hor
            rcases hor with hx | hx
            · cases hx
            · cases hx
          · intro c hc
            rw [hE] at hc
            cases hc
        | some s0 =>
          have hA : AuthDuringCommConfig.try_from res raw.auth_during_comm_config
              = .ok { core_url := raw.auth_during_comm_config.core_url
                      widget_url := raw.auth_during_comm_config.widget_url
                      display_name := raw.auth_during_comm_config.display_name
                      widget_signer := w0
                      start_auth_signer := s0
                      start_auth_key_id := raw.auth_during_comm_config.start_auth_key_id
                      guest_validator := gv0
                      host_validator := hv0 } := by
            rw [AuthDuringCommConfig.try_from, hG, hH, hW, hS]
          cases hD : res.decrypterOf raw.decryption_privkey with
          | none =>
            have hE : Config.try_from res raw = .err Error.InvalidKeyMaterial := by
              rw [Config.try_from, hA, hD]
            refine ⟨fun _ _ _ _ _ => hE, ?_, ?_⟩
            · intro hor
              rcases hor with hx | hx
              · cases hx
              · cases hx
            · intro c hc
              rw [hE] at hc
              cases hc
          | some d0 =>
            cases hV : res.verifierOf raw.signature_pubkey with
            | none =>
              have hE : Config.try_from res raw = .err Error.InvalidKeyMaterial := by
                rw [Config.try_from, hA, hD, hV]
              refine ⟨fun _ _ _ _ _ => hE, ?_, ?_⟩
              · intro hor
                rcases hor with hx | hx
                · cases hx
                · cases hx
              · intro c hc
                rw [hE] at hc
                cases hc
            | some v0 =>
              have hO : Config.try_from res raw
                  = .ok { internal_url := raw.internal_url
                          external_url := raw.external_url
                          decrypter := d0
                          validator := v0
                          auth_during_comm_config :=
                            { core_url := raw.auth_during_comm_config.core_url
                              widget_url := raw.auth_during_comm_config.widget_url
                              display_name := raw.auth_during_comm_config.display_name
                              widget_signer := w0
                              start_auth_signer := s0
                              start_auth_key_id :=
                                raw.auth_during_comm_config.start_auth_key_id
                              guest_validator := gv0
                              host_validator := hv0 } } := by
                rw [Config.try_from, hA, hD, hV]
              refine ⟨?_, ?_, ?_⟩
              · intro gv hv _ _ hor
                rcases hor with hx | hx | hx | hx
                · cases hx
                · cases hx
                · cases hx
                · cases hx
              · intro hor
                rcases hor with hx | hx
                · cases hx
                · cases hx
              · intro c hc
                rw [hO] at hc
                cases hc
                exact ⟨rfl, rfl, rfl, rfl, rfl, rfl, rfl, rfl⟩

/-- C4 (witness): with guest and host secrets resolving and a malformed
(empty) widget signing key, construction fails with `InvalidKeyMaterial`. -/
theorem config_all_or_nothing_witness :
    Config.try_from demoResolvers demoRawBadWidget
      = .err Error.InvalidKeyMaterial :=
  (config_all_or_nothing demoResolvers demoRawBadWidget).1
    { src := demoGuestSecret } { src := demoHostSecret }
    (by decide) (by decide) (Or.inl (by decide))

/-- C5: on a store whose rows for the given room are persisted sessions,
`find_by_room_id` with no matching row fails with `NotFound` (leaving the
store unchanged); with matching rows it returns exactly as many sessions as
there are matching rows, each returned session being exactly the session
whose persisted row that is (same guest_token fields, the domain
round-tripped unchanged through string parsing); the call refreshes the
last_activity of exactly the matching rows; and decoding a persisted row
recovers the original session. -/
theorem find_by_room_id_returns_room_sessions (db : List Row) (rid : String)
    (now : Int)
    (hpers : ∀ r ∈ db, r.room_id = rid → ∃ s n0, r = rowOfSession s n0) :
    ((∀ r ∈ db, r.room_id ≠ rid) →
      (Session.find_by_room_id rid now db).2 = .error Error.NotFound ∧
      (Session.find_by_room_id rid now db).1 = db) ∧
    ((∃ r ∈ db, r.room_id = rid) →
      ∃ ss, (Session.find_by_room_id rid now db).2 = .ok ss ∧
        ss.length = (db.filter (fun r => r.room_id == rid)).length ∧
        (∀ i (h1 : i < (db.filter (fun r => r.room_id == rid)).length)
            (h2 : i < ss.length),
          rowOfSession (ss.get ⟨i, h2⟩)
              (((db.filter (fun r => r.room_id == rid)).get ⟨i, h1⟩).last_activity)
            = (db.filter (fun r => r.room_id == rid)).get ⟨i, h1⟩)) ∧
    (∀ i (h1 : i < db.length)
        (h2 : i < (Session.find_by_room_id rid now db).1.length),
      ((db.get ⟨i, h1⟩).room_id = rid →
        (Session.find_by_room_id rid now db).1.get ⟨i, h2⟩
          = { db.get ⟨i, h1⟩ with last_activity := now }) ∧
      ((db.get ⟨i, h1⟩).room_id ≠ rid →
        (Session.find_by_room_id rid now db).1.get ⟨i, h2⟩ = db.get ⟨i, h1⟩)) ∧
    (∀ (s : Session) (n0 : Int), decodeRow (rowOfSession s n0) = .ok s) := by
  refine ⟨?_, ?_, ?_, fun s n0 => decodeRow_rowOfSession s n0⟩
  · intro hno
    have hfilter : db.filter (fun r => r.room_id == rid) = [] := by
      rw [List.filter_eq_nil_iff]
      intro r hr
      simp
      exact hno r hr
    constructor
    · rw [find_snd, find_rows_eq, hfilter]
      rfl
    · rw [find_fst]
      have hid : ∀ r ∈ db, refreshRow rid now r = r := by
        intro r hr
        have hb : (r.room_id == rid) = false := by
          simp
          exact hno r hr
        simp [refreshRow, hb]
      calc db.map (refreshRow rid now) = db.map id := List.map_congr_left hid
        _ = db := List.map_id db
  · rintro ⟨r0, hr0, hroom⟩
    have hpersrows : ∀ r ∈ (db.filter (fun r => r.room_id == rid)).map
        (refreshRow rid now), ∃ s n, r = rowOfSession s n := by
      intro r hr
      rw [List.mem_map] at hr
      obtain ⟨m, hm, rfl⟩ := hr
      obtain ⟨hmdb, hmroom⟩ := List.mem_filter.mp hm
      obtain ⟨s, n0, rfl⟩ := hpers m hmdb (by simpa using hmroom)
      have hs : s.guest_token.room_id = rid := by
        simpa [rowOfSession] using hmroom
      exact ⟨s, now, refreshRow_rowOfSession rid now n0 s hs⟩
    obtain ⟨ss, hss, hlen, hpos⟩ := decodeRows_persisted _ hpersrows
    have hmemrows : refreshRow rid now r0
        ∈ (db.map (refreshRow rid now)).filter (fun r => r.room_id == rid) := by
      rw [List.mem_filter]
      exact ⟨List.mem_map.mpr ⟨r0, hr0, rfl⟩,
        by simp [refreshRow_room_id, hroom]⟩
    have hne : ((db.map (refreshRow rid now)).filter
        (fun r => r.room_id == rid)).isEmpty = false := by
      rw [List.isEmpty_eq_false]
      exact List.ne_nil_of_mem hmemrows
    refine ⟨ss, ?_, ?_, ?_⟩
    · rw [find_snd, hne]
      simp only [Bool.false_eq_true, if_false]
      rw [find_rows_eq]
      exact hss
    · rw [hlen, List.length_map]
    · intro i h1 h2
      have hm : (db.filter (fun r => r.room_id == rid)).get ⟨i, h1⟩
          ∈ db.filter (fun r => r.room_id == rid) := List.get_mem _ _ _
      obtain ⟨hmdb, hmroom⟩ := List.mem_filter.mp hm
      obtain ⟨s, n0, hmeq⟩ := hpers _ hmdb (by simpa using hmroom)
      have hL : i < ((db.filter (fun r => r.room_id == rid)).map
          (refreshRow rid now)).length := by
        rw [List.length_map]
        exact h1
      have hLget : ((db.filter (fun r => r.room_id == rid)).map
            (refreshRow rid now)).get ⟨i, hL⟩
          = refreshRow rid now ((db.filter (fun r => r.room_id == rid)).get ⟨i, h1⟩) := by
        simp [List.get_eq_getElem, List.getElem_map]
      have hp := hpos i hL h2
      rw [hLget, hmeq] at hp
      have hs : s.guest_token.room_id = rid := by
        rw [hmeq] at hmroom
        simpa [rowOfSession] using hmroom
      rw [refreshRow_rowOfSession rid now n0 s hs] at hp
      have hssi : ss.get ⟨i, h2⟩ = s := rowOfSession_inj hp
      rw [hssi, hmeq]
      rfl
  · intro i h1 h2
    have hget : (Session.find_by_room_id rid now db).1.get ⟨i, h2⟩
        = refreshRow rid now (db.get ⟨i, h1⟩) := by
      simp [Session.find_by_room_id, List.get_eq_getElem, List.getElem_map]
    constructor
    · intro hr
      have hb : ((db.get ⟨i, h1⟩).room_id == rid) = true := by
        simpa using hr
      rw [hget, refreshRow, if_pos hb]
    · intro hr
      have hb : ((db.get ⟨i, h1⟩).room_id == rid) = false := by
        simpa using hr
      rw [hget, refreshRow, if_neg (by rw [hb]; exact Bool.false_ne_true)]

/-- C5 (witness): looking up a room with no sessions fails with `NotFound`,
and decoding the persisted row of `demoSession` recovers `demoSession`
(domain round-trip included). -/
theorem find_by_room_id_returns_room_sessions_witness :
    (Session.find_by_room_id "nosuch" 7 [demoRow]).2 = .error Error.NotFound ∧
    decodeRow (rowOfSession demoSession 3) = .ok demoSession := by
  have hpers : ∀ r ∈ [demoRow], r.room_id = "nosuch"
      → ∃ s n0, r = rowOfSession s n0 := by
    intro r hr _
    refine ⟨demoSession, 0, ?_⟩
    cases hr with
    | head => rfl
    | tail _ hx => cases hx
  have h := find_by_room_id_returns_room_sessions [demoRow] "nosuch" 7 hpers
  refine ⟨(h.1 ?_).1, h.2.2.2 demoSession 3⟩
  intro r hr
  cases hr with
  | head => decide
  | tail _ hx => cases hx

/-- C6: if some row of the room has a stored domain string outside the
closed `SessionDomain` enumeration, `find_by_room_id` fails with the
validation error `InvalidToken`, which is distinct from `NotFound` — the
corrupted row is neither skipped nor reported as `NotFound`. -/
theorem find_by_room_id_domain_integrity (db : List Row) (rid : String)
    (now : Int) (r : Row) (hr : r ∈ db) (hroom : r.room_id = rid)
    (hbad : ∀ d : SessionDomain, r.domain ≠ SessionDomain.to_string d) :
    (Session.find_by_room_id rid now db).2 = .error Error.InvalidToken ∧
    Error.InvalidToken ≠ Error.NotFound := by
  refine ⟨?_, by decide⟩
  have hmemrows : refreshRow rid now r
      ∈ (db.map (refreshRow rid now)).filter (fun x => x.room_id == rid) := by
    rw [List.mem_filter]
    exact ⟨List.mem_map.mpr ⟨r, hr, rfl⟩, by simp [refreshRow_room_id, hroom]⟩
  have hne : ((db.map (refreshRow rid now)).filter
      (fun x => x.room_id == rid)).isEmpty = false := by
    rw [List.isEmpty_eq_false]
    exact List.ne_nil_of_mem hmemrows
  rw [find_snd, hne]
  simp only [Bool.false_eq_true, if_false]
  cases hdec : decodeRows ((db.map (refreshRow rid now)).filter
      (fun x => x.room_id == rid)) with
  | ok ss =>
    exfalso
    obtain ⟨s, hs⟩ := decodeRows_ok_mem hdec _ hmemrows
    have hdom := decodeRow_ok_domain hs
    rw [refreshRow_domain] at hdom
    exact hbad _ hdom
  | error e =>
    rw [decodeRows_err hdec]

/-- C6 (witness): a room whose single row has domain `"corrupt"` fails with
`InvalidToken`, not `NotFound`. -/
theorem find_by_room_id_domain_integrity_witness :
    (Session.find_by_room_id "r1" 7 [demoCorruptRow]).2
      = .error Error.InvalidToken :=
  (find_by_room_id_domain_integrity [demoCorruptRow] "r1" 7 demoCorruptRow
    (List.mem_cons_self _ _) rfl (by intro d; cases d <;> decide)).1

end CommCommon
